import Mathlib

/-!
Verification of the financial-document-analyzer job pipeline.

The definitions below are a shallow embedding of the repository's Python
sources: `db.py` (the job ledger), `celery_worker.py` (the background worker
task), `tools.py` (the PDF reading tool) and `main.py` (the HTTP endpoints).
External effects (file system, task queue, result backend, the CrewAI
analysis call) are modelled as explicit inputs, and each function returns
the list of side effects it performs together with its outcome, in the
order the source performs them.
-/

/-! ## Python string primitives

Python string operations used by the sources, modelled over `String.data`
(the character list) so that they evaluate by kernel reduction.
`Char.isWhitespace` covers the ASCII whitespace Python's `str.strip`
removes in all inputs that occur here. -/

/-- Characters of `l` with leading and trailing whitespace removed. -/
def stripChars (l : List Char) : List Char :=
  ((l.dropWhile Char.isWhitespace).reverse.dropWhile Char.isWhitespace).reverse

/-- Python `s.strip()`. -/
def pyStrip (s : String) : String := ⟨stripChars s.data⟩

/-- Python `s.lower()`. -/
def pyLower (s : String) : String := ⟨s.data.map Char.toLower⟩

/-- Python `s.endswith(suffixStr)`. -/
def pyEndsWith (s suffixStr : String) : Bool := suffixStr.data.isSuffixOf s.data

/-- Python `s.startswith(pre)`. -/
def pyStartsWith (s pre : String) : Bool := pre.data.isPrefixOf s.data

/-- Helper for substring search: does `sub` occur starting at any position of the list? -/
def containsAux (sub : List Char) : List Char → Bool
  | [] => sub.isPrefixOf []
  | c :: rest => sub.isPrefixOf (c :: rest) || containsAux sub rest

/-- Python `sub in s` (substring containment). -/
def pyContains (s sub : String) : Bool := containsAux sub.data s.data

/-- Python `not s or s.strip() == ""`, the blank-query test used by both
submission endpoints in `main.py`. -/
def pyBlank (s : String) : Bool := (s == "") || (pyStrip s == "")

/-! ## db.py — the job ledger

`Analysis` mirrors the SQLModel table: `job_id` is an indexed but NOT
unique column (`Field(default=None, index=True)`), `status` defaults to
"queued" and `analysis_text` to NULL. The store is the list of rows in
insertion order; timestamps are abstract `Nat` instants and the
autoincrement primary key is modelled as `length + 1`. -/

structure Analysis where
  id : Nat
  job_id : Option String
  filename : String
  query : String
  file_path : String
  status : String
  analysis_text : Option String
  created_at : Nat
  updated_at : Nat
deriving DecidableEq, Repr

/-- `db.save_new`: unconditionally constructs a fresh row with status
"queued" and inserts it; returns the new primary key. The source performs
no duplicate check of any kind before the insert. -/
def save_new (store : List Analysis) (job_id filename query file_path : String) (now : Nat) :
    List Analysis × Nat :=
  let row : Analysis :=
    { id := store.length + 1, job_id := some job_id, filename := filename, query := query,
      file_path := file_path, status := "queued", analysis_text := none,
      created_at := now, updated_at := now }
  (store ++ [row], store.length + 1)

/-- `db.update_result`: selects the first row whose `job_id` matches; if one
exists it overwrites `analysis_text` and `status` and refreshes
`updated_at`; if none exists the body of the `if rec:` guard is skipped and
the store is left unchanged. (The Python default for `status` is
"finished"; callers here always pass it explicitly.) -/
def update_result (store : List Analysis) (jid analysis_text status : String) (now : Nat) :
    List Analysis :=
  match store with
  | [] => []
  | r :: rest =>
    if r.job_id = some jid then
      { r with analysis_text := some analysis_text, status := status, updated_at := now } :: rest
    else
      r :: update_result rest jid analysis_text status now

/-- `db.get_by_job`: first row whose `job_id` matches, if any. -/
def get_by_job (store : List Analysis) (jid : String) : Option Analysis :=
  store.find? (fun r => r.job_id == some jid)

/-! ## celery_worker.py — the background worker task

`run_crew_task` is modelled as the ordered list of observable events it
produces. The environment fixes the outcome of each external interaction,
in the order the source consults them. -/

/-- Observable events of one `run_crew_task` execution. -/
inductive WEvent where
  /-- `self.update_state(state='PROGRESS', meta=...)` with the given progress and status text. -/
  | progressUpdate : Nat → String → WEvent
  /-- `self.update_state(state='FAILURE', meta=...)` with the given progress and error type. -/
  | failureUpdate : Nat → String → WEvent
  /-- `os.remove(file_path)` — deletion of the job's backing document. -/
  | deleteFile : WEvent
  /-- the task returns its success payload, which carries `'progress': 100`. -/
  | succeed : WEvent
  /-- the task re-raises the exception of the given type after reporting failure. -/
  | raiseExc : String → WEvent
deriving DecidableEq, Repr

/-- Outcomes of the external interactions of one `run_crew_task` run. -/
structure WorkerEnv where
  /-- `not query or not query.strip()` -/
  queryBlank : Bool
  /-- `os.path.exists(file_path)` at task start (nothing else touches the file during the run) -/
  fileOnDisk : Bool
  /-- `from worker_task import run_crew` succeeds -/
  importOk : Bool
  /-- `FinancialDocumentTool.read_data_tool(file_path)` returned a string starting with "Error:" -/
  docReadError : Bool
  /-- `run_crew(...)` raised -/
  crewRaises : Bool
  /-- `run_crew(...)` returned a falsy result (`if not result:`) -/
  crewFalsy : Bool
  /-- `str(result).strip() == ""` -/
  resultBlank : Bool
deriving DecidableEq, Repr

/-- `os.remove` guarded by `os.path.exists(file_path)` in the cleanup blocks. -/
def cleanupIf (onDisk : Bool) : List WEvent :=
  if onDisk then [WEvent.deleteFile] else []

/-- The event trace of `celery_worker.run_crew_task`. Every failure handler
of the source first (except for `ImportError`) removes the file if it
exists, then reports `FAILURE` with `'progress': 0`, then re-raises; the
success path removes the file and then returns a payload with progress
100. The `ImportError` handler reports failure WITHOUT any file cleanup.
The final catch-all `except Exception` branch is unreachable in this model
because every modelled failure is a `ValueError`, `ImportError` or
`RuntimeError`; its cleanup-then-report order equals the other handlers. -/
def run_crew_task (env : WorkerEnv) : List WEvent :=
  WEvent.progressUpdate 0 "Initializing analysis..." ::
  (if env.queryBlank then
    cleanupIf env.fileOnDisk ++ [WEvent.failureUpdate 0 "ValidationError", WEvent.raiseExc "ValueError"]
  else if !env.fileOnDisk then
    cleanupIf false ++ [WEvent.failureUpdate 0 "ValidationError", WEvent.raiseExc "ValueError"]
  else
    WEvent.progressUpdate 10 "Validation complete, loading analysis tools..." ::
    (if !env.importOk then
      [WEvent.failureUpdate 0 "ImportError", WEvent.raiseExc "ImportError"]
    else
      WEvent.progressUpdate 20 "Analysis modules loaded, starting document verification..." ::
      (if env.docReadError then
        cleanupIf true ++ [WEvent.failureUpdate 0 "ValidationError", WEvent.raiseExc "ValueError"]
      else
        WEvent.progressUpdate 30 "Document verified, initializing AI agents..." ::
        WEvent.progressUpdate 40 "AI agents initialized, beginning financial analysis..." ::
        WEvent.progressUpdate 50 "Running document verification phase..." ::
        (if env.crewRaises || env.crewFalsy then
          cleanupIf true ++ [WEvent.failureUpdate 0 "RuntimeError", WEvent.raiseExc "RuntimeError"]
        else
          WEvent.progressUpdate 80 "Analysis complete, generating final report..." ::
          (if env.resultBlank then
            cleanupIf true ++ [WEvent.failureUpdate 0 "ValidationError", WEvent.raiseExc "ValueError"]
          else
            WEvent.progressUpdate 90 "Finalizing results and cleaning up..." ::
            cleanupIf true ++ [WEvent.succeed])))))

/-- The progress values a polling client can observe for the run, in order:
every `PROGRESS` and `FAILURE` meta carries a progress value, and the
success payload carries 100 (`task_status` also reports 100 for `SUCCESS`). -/
def progressReads (es : List WEvent) : List Nat :=
  es.filterMap fun e =>
    match e with
    | WEvent.progressUpdate p _ => some p
    | WEvent.failureUpdate p _ => some p
    | WEvent.succeed => some 100
    | _ => none

/-- The progress values observed while the run has not reported failure. -/
def nonFailureReads (es : List WEvent) : List Nat :=
  es.filterMap fun e =>
    match e with
    | WEvent.progressUpdate p _ => some p
    | WEvent.succeed => some 100
    | _ => none

/-- Boolean test that a list of naturals is non-decreasing. -/
def nonDecr : List Nat → Bool
  | [] => true
  | [_] => true
  | a :: b :: rest => Nat.ble a b && nonDecr (b :: rest)

/-- Every `FAILURE` report in the trace carries progress 0. -/
def failProgressZero (e : WEvent) : Bool :=
  match e with
  | WEvent.failureUpdate p _ => p == 0
  | _ => true

/-- Does a `deleteFile` occur in the trace strictly before the first
terminal report (`FAILURE` state update or success return)? -/
def deletedBeforeTerminal : List WEvent → Bool
  | [] => true
  | WEvent.deleteFile :: _ => true
  | WEvent.failureUpdate _ _ :: _ => false
  | WEvent.succeed :: _ => false
  | _ :: rest => deletedBeforeTerminal rest

/-! ## tools.py — FinancialDocumentTool.read_data_tool

The file system and the pypdf parse are the external inputs: an absent
file is `none`; a present file has a readability flag, a byte size, and
either a parsed PDF (`some`) or a parse failure (`none`, the
`except Exception as pdf_error` branch). A parsed PDF is an encryption
flag plus one outcome per page of `page.extract_text()`. -/

/-- Outcome of `page.extract_text()` for one page. -/
inductive PageOutcome where
  /-- extraction returned this string (possibly empty or blank) -/
  | text : String → PageOutcome
  /-- extraction raised; the message is interpolated into the page marker -/
  | extractFailed : String → PageOutcome
deriving DecidableEq, Repr

/-- A successfully parsed PDF. -/
structure PdfFile where
  encrypted : Bool
  pages : List PageOutcome
deriving DecidableEq, Repr

/-- A file present on disk. -/
structure FsFile where
  readable : Bool
  byteSize : Nat
  parsed : Option PdfFile
deriving DecidableEq, Repr

/-- One iteration of the page loop: the exact text appended to
`full_report` for page index `idx` (0-based; the marker uses `idx + 1`). -/
def renderPage (idx : Nat) (pg : PageOutcome) : String :=
  match pg with
  | PageOutcome.text content =>
    if (content != "") && (pyStrip content != "") then
      "Page " ++ toString (idx + 1) ++ ":\n" ++ pyStrip (content.replace "\n\n" "\n") ++ "\n\n"
    else
      "Page " ++ toString (idx + 1) ++ ": [No extractable text found]\n\n"
  | PageOutcome.extractFailed msg =>
    "Page " ++ toString (idx + 1) ++ ": [Error extracting text: " ++ msg ++ "]\n\n"

/-- The page loop of `read_data_tool`, accumulating `full_report`. -/
def buildReport : Nat → List PageOutcome → String
  | _, [] => ""
  | i, pg :: rest => renderPage i pg ++ buildReport (i + 1) rest

/-- The keyword list of the financial-content heuristic. -/
def FIN_KEYWORDS : List String :=
  ["revenue", "profit", "loss", "financial", "balance", "cash", "income", "statement"]

/-- `FinancialDocumentTool.read_data_tool`. Total: the source wraps the
whole body in try/except handlers that all `return` strings, so every
outcome is a string and no exception escapes. Quotation marks around the
interpolated path in the source messages are elided. -/
def read_data_tool (file : Option FsFile) (file_path : String) : String :=
  match file with
  | none =>
    "Error: File not found at path " ++
      (file_path ++ ". Please ensure the file exists and the path is correct.")
  | some f =>
    if !f.readable then
      "Error: No read permission for file at path " ++ file_path
    else if f.byteSize == 0 then
      "Error: File at path " ++ (file_path ++ " is empty")
    else if f.byteSize > 50 * 1024 * 1024 then
      "Error: File at path " ++
        (file_path ++ " is too large (" ++ toString f.byteSize ++
          " bytes). Maximum supported size is 50MB.")
    else
      match f.parsed with
      | none =>
        "Error reading PDF structure: the file may be corrupted or in an unsupported format."
      | some pdf =>
        if pdf.encrypted then
          "Error: PDF file at " ++ (file_path ++ " is encrypted and cannot be read")
        else if pdf.pages.length == 0 then
          "Error: PDF file at " ++ (file_path ++ " contains no pages")
        else
          let full_report := buildReport 0 pdf.pages
          if pyStrip full_report == "" then
            "Error: No readable content found in the PDF file. The file may be image-based or corrupted."
          else if !(FIN_KEYWORDS.any fun kw => pyContains (pyLower full_report) kw) then
            "Warning: This document may not contain typical financial content.\n\n" ++ full_report
          else
            full_report

/-- The file-level failure conditions of `read_data_tool` whose messages
the source writes with an "Error:" prefix: file absent, unreadable, empty,
over 50 MiB, or parsed but encrypted or page-free. (A parse failure yields
"Error reading PDF structure: ...", which has no "Error:" prefix, and is
not among these.) -/
def fileLevelError : Option FsFile → Bool
  | none => true
  | some f =>
    !f.readable || f.byteSize == 0 || f.byteSize > 50 * 1024 * 1024 ||
      (match f.parsed with
       | none => false
       | some pdf => pdf.encrypted || pdf.pages.length == 0)

/-! ## main.py — the HTTP endpoints

Each endpoint returns its ordered list of side effects together with its
outcome. `Except Nat` models raising `HTTPException(status_code)`. -/

/-- The side effects of the submission endpoints, in execution order. -/
inductive Effect where
  /-- `open(file_path, "wb")` write of the upload into `data/` -/
  | writeDoc : Effect
  /-- `run_crew(query=..., file_path=...)` with the given query -/
  | callCrew : String → Effect
  /-- `run_crew_task.delay(query=..., file_path=...)` with the given query -/
  | enqueueTask : String → Effect
  /-- `save_new(task_id, ...)` attempt for the given job id -/
  | saveLedger : String → Effect
  /-- `os.remove(file_path)` cleanup -/
  | removeDoc : Effect
deriving DecidableEq, Repr

/-- The 50 MB upload limit (`50 * 1024 * 1024`). -/
def MAX_FILE_SIZE : Nat := 50 * 1024 * 1024

/-- The canned default prompt. -/
def DEFAULT_QUERY : String := "Analyze this financial document for investment insights"

/-- Rate-limit phrasing test of the sync endpoint's error handler. -/
def rateLimitPhrase (msg : String) : Bool :=
  pyContains msg "RateLimitError" || pyContains msg "RESOURCE_EXHAUSTED" ||
    pyContains msg "code\": 429" || pyContains (pyLower msg) "rate limit"

/-- Authentication phrasing test of the sync endpoint's error handler. -/
def authPhrase (msg : String) : Bool :=
  pyContains (pyLower msg) "authentication" || pyContains (pyLower msg) "api key" ||
    pyContains (pyLower msg) "unauthorized"

/-- No-extractable-content phrasing test of the sync endpoint's error handler. -/
def noContentPhrase (msg : String) : Bool := pyContains msg "No readable content"

/-- The if/elif/elif/else chain mapping the analysis error text to an HTTP
status in `analyze_document`. -/
def classifyError (msg : String) : Nat :=
  if rateLimitPhrase msg then 429
  else if authPhrase msg then 503
  else if noContentPhrase msg then 400
  else 500

/-- Outcome of the `run_crew` call in the synchronous endpoint. -/
inductive CrewOutcome where
  /-- the call raised, with `str(analysis_error)` equal to the payload -/
  | raised : String → CrewOutcome
  /-- the call returned; the flag is Python truthiness of the result, the payload `str(response)` -/
  | returned : Bool → String → CrewOutcome
deriving DecidableEq, Repr

/-- External state consulted by the synchronous endpoint. -/
structure SyncEnv where
  /-- `_has_ai`: GEMINI_API_KEY configured -/
  hasAi : Bool
  /-- `from worker_task import run_crew` succeeds -/
  importOk : Bool
  /-- outcome of the `run_crew` call -/
  crew : CrewOutcome
deriving DecidableEq, Repr

/-- Outcome of a submission endpoint. -/
inductive SyncOutcome where
  | httpError : Nat → SyncOutcome
  /-- 200 payload: the (defaulted) query and the analysis text -/
  | success : String → String → SyncOutcome
deriving DecidableEq, Repr

/-- `POST /analyze-document` (`main.analyze_document`). Validation runs on
the in-memory upload before anything is written; the two size-check
`HTTPException(400)`s raised inside the read try-block are re-wrapped by
its `except Exception` into another 400, so the status is 400 either way.
A falsy `run_crew` result raises `HTTPException(500, "Analysis completed
but returned no results...")`, which the generic handler catches; its text
matches none of the classifier phrases, so it classifies to 500. The
`finally` block always removes the written file. -/
def analyze_document (env : SyncEnv) (filename : String) (size : Nat) (query : String) :
    List Effect × SyncOutcome :=
  if !env.hasAi then ([], SyncOutcome.httpError 503)
  else if filename == "" then ([], SyncOutcome.httpError 400)
  else if !(pyEndsWith (pyLower filename) ".pdf") then ([], SyncOutcome.httpError 400)
  else if size == 0 then ([], SyncOutcome.httpError 400)
  else if size > MAX_FILE_SIZE then ([], SyncOutcome.httpError 400)
  else
    let q := if pyBlank query then DEFAULT_QUERY else query
    if !env.importOk then ([Effect.writeDoc, Effect.removeDoc], SyncOutcome.httpError 500)
    else
      match env.crew with
      | CrewOutcome.raised msg =>
        ([Effect.writeDoc, Effect.callCrew (pyStrip q), Effect.removeDoc],
          SyncOutcome.httpError (classifyError msg))
      | CrewOutcome.returned truthy out =>
        if !truthy then
          ([Effect.writeDoc, Effect.callCrew (pyStrip q), Effect.removeDoc],
            SyncOutcome.httpError 500)
        else
          ([Effect.writeDoc, Effect.callCrew (pyStrip q), Effect.removeDoc],
            SyncOutcome.success q out)

/-- External state consulted by the asynchronous endpoint. -/
structure AsyncEnv where
  /-- `_has_celery` -/
  hasCelery : Bool
  /-- `_has_ai` -/
  hasAi : Bool
  /-- `_has_db` -/
  hasDb : Bool
  /-- `run_crew_task.delay(...)` does not raise -/
  enqueueOk : Bool
  /-- `task.id` is falsy after a successful `delay` -/
  taskIdBlank : Bool
  /-- `save_new(...)` does not raise; its failure is caught and only logged,
  so neither the effect list nor the response depends on this field -/
  saveOk : Bool
  /-- the queue-assigned `task.id` -/
  taskId : String
deriving DecidableEq, Repr

/-- Outcome of the asynchronous submission endpoint. -/
inductive AsyncOutcome where
  | httpError : Nat → AsyncOutcome
  /-- 200 payload `{status: "queued", task_id, ...}` -/
  | queued : String → AsyncOutcome
deriving DecidableEq, Repr

/-- `POST /analyze-document-async` (`main.analyze_document_async`).
Validation mirrors the synchronous endpoint (plus the `_has_celery`
pre-flight). The task is enqueued FIRST; only then is `save_new` attempted,
inside a try/except that swallows any database failure with a log line, so
the queued 200 response is returned whether or not the ledger write
succeeded. If `delay` raises, or the returned task id is falsy, the file
is removed and a 503 is raised. -/
def analyze_document_async (env : AsyncEnv) (filename : String) (size : Nat) (query : String) :
    List Effect × AsyncOutcome :=
  if !env.hasCelery then ([], AsyncOutcome.httpError 503)
  else if !env.hasAi then ([], AsyncOutcome.httpError 503)
  else if filename == "" then ([], AsyncOutcome.httpError 400)
  else if !(pyEndsWith (pyLower filename) ".pdf") then ([], AsyncOutcome.httpError 400)
  else if size == 0 then ([], AsyncOutcome.httpError 400)
  else if size > MAX_FILE_SIZE then ([], AsyncOutcome.httpError 400)
  else
    let q := if pyBlank query then DEFAULT_QUERY else query
    if !env.enqueueOk then ([Effect.writeDoc, Effect.removeDoc], AsyncOutcome.httpError 503)
    else if env.taskIdBlank then
      ([Effect.writeDoc, Effect.enqueueTask (pyStrip q), Effect.removeDoc],
        AsyncOutcome.httpError 503)
    else
      ([Effect.writeDoc, Effect.enqueueTask (pyStrip q)] ++
        (if env.hasDb then [Effect.saveLedger env.taskId] else []),
       AsyncOutcome.queued env.taskId)

/-- The task-queue result backend's view of a task, as `AsyncResult.state`
exposes it. -/
inductive CeleryState where
  | pending : CeleryState
  /-- PROGRESS with `info = {progress, status}` -/
  | progressing : Nat → String → CeleryState
  /-- SUCCESS with the result payload -/
  | succeededWith : String → CeleryState
  /-- FAILURE with `info = {error, error_type}` -/
  | failedWith : String → String → CeleryState
  /-- any other state name (RETRY, REVOKED, ...) -/
  | otherState : String → CeleryState
deriving DecidableEq, Repr

/-- `AsyncResult(task_id).state`: a task id unknown to the result backend
reports PENDING (Celery's documented behaviour for unknown ids — it cannot
distinguish an unknown id from a not-yet-started task). -/
def asyncResultState (backend : List (String × CeleryState)) (task_id : String) : CeleryState :=
  match backend.lookup task_id with
  | some st => st
  | none => CeleryState.pending

/-- The response envelope of `GET /task-status/{task_id}` (state name,
reported progress, message). -/
structure StatusResponse where
  state : String
  progress : Nat
  message : String
deriving DecidableEq, Repr

/-- `GET /task-status/{task_id}` (`main.task_status`): 503 without Celery,
400 for a blank id, otherwise a 200 envelope derived from the backend
state — PENDING and FAILURE and other states report progress 0, PROGRESS
reports `info.get('progress', 0)`, SUCCESS reports 100. -/
def task_status (hasCelery : Bool) (backend : List (String × CeleryState)) (task_id : String) :
    Except Nat StatusResponse :=
  if !hasCelery then Except.error 503
  else if (task_id == "") || (pyStrip task_id == "") then Except.error 400
  else
    match asyncResultState backend task_id with
    | CeleryState.pending =>
      Except.ok ⟨"PENDING", 0, "Your task is queued and will begin processing soon"⟩
    | CeleryState.progressing p _ =>
      Except.ok ⟨"PROGRESS", p, "Task is currently being processed"⟩
    | CeleryState.succeededWith _ =>
      Except.ok ⟨"SUCCESS", 100, "Analysis completed"⟩
    | CeleryState.failedWith _ _ =>
      Except.ok ⟨"FAILURE", 0, "Task failed to complete"⟩
    | CeleryState.otherState s =>
      Except.ok ⟨s, 0, "Task status: " ++ s⟩

/-- `GET /analysis/{job_id}` (`main.analysis_record`): 503 without the
database, 400 for a blank id, 404 when `get_by_job` finds nothing,
otherwise the record. -/
def analysis_record (hasDb : Bool) (store : List Analysis) (job_id : String) :
    Except Nat Analysis :=
  if !hasDb then Except.error 503
  else if (job_id == "") || (pyStrip job_id == "") then Except.error 400
  else
    match get_by_job store job_id with
    | none => Except.error 404
    | some r => Except.ok r

/-- Concrete ledger holding one row with `job_id = "job-1"`. -/
def dupStore : List Analysis := (save_new [] "job-1" "a.pdf" "q" "data/a.pdf" 0).1

/-- Concrete ledger row with `job_id = "j"`. -/
def recJ : Analysis :=
  { id := 1, job_id := some "j", filename := "f.pdf", query := "q", file_path := "p",
    status := "queued", analysis_text := none, created_at := 0, updated_at := 0 }

/-- A present, readable, non-empty, small, unencrypted PDF whose single
page has no extractable text. -/
def blankPageFs : Option FsFile := some ⟨true, 100, some ⟨false, [PageOutcome.text ""]⟩⟩

/-! ## Helper lemmas -/

/-- A string that starts with `pre` still starts with `pre` after appending. -/
theorem pyStartsWith_append (pre s t : String) (h : pyStartsWith s pre = true) :
    pyStartsWith (s ++ t) pre = true := by
  unfold pyStartsWith at h ⊢
  rw [String.data_append]
  rw [List.isPrefixOf_iff_prefix] at h ⊢
  exact h.trans (List.prefix_append _ _)

/-- `update_result` leaves the store unchanged when no row carries the job id. -/
theorem update_result_of_absent (store : List Analysis) (jid txt st : String) (now : Nat)
    (h : ∀ r ∈ store, r.job_id ≠ some jid) :
    update_result store jid txt st now = store := by
  induction store with
  | nil => rfl
  | cons r rest ih =>
    simp only [update_result]
    rw [if_neg (h r (List.mem_cons_self r rest))]
    rw [ih fun r' hr' => h r' (List.mem_cons_of_mem _ hr')]

/-! ## Claim C1 -/

/-- C1 fails on the code: when `run_crew` raises, the worker has already
reported progress 50, and the FAILURE report then carries progress 0, so
the observed progress sequence 0,10,20,30,40,50,0 decreases across the
transition to the terminal state. -/
theorem C1_counterexample :
    WEvent.failureUpdate 0 "RuntimeError" ∈
        run_crew_task ⟨false, true, true, false, true, false, false⟩ ∧
    progressReads (run_crew_task ⟨false, true, true, false, true, false, false⟩) =
      [0, 10, 20, 30, 40, 50, 0] ∧
    nonDecr (progressReads (run_crew_task ⟨false, true, true, false, true, false, false⟩)) =
      false := by decide

/-- C1 (amended): for every run of the worker task, progress is
monotonically non-decreasing while the job has not failed (across the
PROGRESS updates and through the success payload); every FAILURE report
resets progress to 0; and an observed progress of 100 occurs iff the run
reaches the succeeded terminal state. -/
theorem C1_progress_amended :
    ∀ env : WorkerEnv,
      nonDecr (nonFailureReads (run_crew_task env)) = true ∧
      (run_crew_task env).all failProgressZero = true ∧
      (100 ∈ progressReads (run_crew_task env) ↔ WEvent.succeed ∈ run_crew_task env) := by
  rintro ⟨a, b, c, d, e, f, g⟩
  cases a <;> cases b <;> cases c <;> cases d <;> cases e <;> cases f <;> cases g <;> decide

/-! ## Claim C2 -/

/-- C2 fails on the code: when the `worker_task` import fails with the
document still on disk, the `ImportError` handler reports the terminal
FAILURE without attempting any file deletion, so the document outlives the
job. -/
theorem C2_counterexample :
    (⟨false, true, false, false, false, false, false⟩ : WorkerEnv).fileOnDisk = true ∧
    WEvent.failureUpdate 0 "ImportError" ∈
      run_crew_task ⟨false, true, false, false, false, false, false⟩ ∧
    WEvent.deleteFile ∉ run_crew_task ⟨false, true, false, false, false, false, false⟩ ∧
    deletedBeforeTerminal (run_crew_task ⟨false, true, false, false, false, false, false⟩) =
      false := by decide

/-- C2 (amended): for every run of the worker task whose backing document
exists, deletion of the document is attempted before the terminal outcome
is reported, EXCEPT when the terminal outcome is the import-error failure,
whose handler performs no cleanup. -/
theorem C2_cleanup_amended :
    ∀ env : WorkerEnv, env.fileOnDisk = true →
      deletedBeforeTerminal (run_crew_task env) = true ∨
        WEvent.failureUpdate 0 "ImportError" ∈ run_crew_task env := by
  rintro ⟨a, b, c, d, e, f, g⟩ h
  revert h
  cases a <;> cases b <;> cases c <;> cases d <;> cases e <;> cases f <;> cases g <;> decide

/-- C2 witness: a successful run with the file on disk deletes it before
reporting success. -/
theorem C2_witness :
    deletedBeforeTerminal (run_crew_task ⟨false, true, true, false, false, false, false⟩) = true ∨
      WEvent.failureUpdate 0 "ImportError" ∈
        run_crew_task ⟨false, true, true, false, false, false, false⟩ :=
  C2_cleanup_amended ⟨false, true, true, false, false, false, false⟩ rfl

/-! ## Claim C3 -/

/-- C3 fails on the code: `save_new` performs no duplicate check, so a
second insert under an existing `job_id` succeeds and the ledger then
holds two records for that id. -/
theorem C3_counterexample :
    (save_new dupStore "job-1" "b.pdf" "q2" "data/b.pdf" 1).1.countP
        (fun r => r.job_id == some "job-1") = 2 ∧
    (save_new dupStore "job-1" "b.pdf" "q2" "data/b.pdf" 1).1.length = 2 := by decide

/-- C3 (amended): `save_new` never fails with a duplicate-job error: even
when a row with the given `job_id` already exists, it unconditionally
appends a fresh "queued" row, after which at least two ledger records
carry that `job_id`. -/
theorem C3_save_new_amended (store : List Analysis) (jid fn q fp : String) (now : Nat)
    (hdup : ∃ r ∈ store, r.job_id = some jid) :
    (save_new store jid fn q fp now).1 =
      store ++ [{ id := store.length + 1, job_id := some jid, filename := fn, query := q,
                  file_path := fp, status := "queued", analysis_text := none,
                  created_at := now, updated_at := now }] ∧
    2 ≤ (save_new store jid fn q fp now).1.countP (fun r => r.job_id == some jid) := by
  refine ⟨rfl, ?_⟩
  obtain ⟨r, hr, hjid⟩ := hdup
  have h1 : 0 < store.countP (fun r => r.job_id == some jid) :=
    List.countP_pos_iff.mpr ⟨r, hr, by simp [hjid]⟩
  have h2 : (save_new store jid fn q fp now).1.countP (fun r => r.job_id == some jid) =
      store.countP (fun r => r.job_id == some jid) + 1 := by
    simp [save_new, List.countP_append, List.countP_cons]
  omega

/-- C3 witness: inserting "job-1" into a ledger already holding "job-1". -/
theorem C3_witness :
    (save_new dupStore "job-1" "b.pdf" "q2" "data/b.pdf" 1).1 =
      dupStore ++ [{ id := dupStore.length + 1, job_id := some "job-1", filename := "b.pdf",
                     query := "q2", file_path := "data/b.pdf", status := "queued",
                     analysis_text := none, created_at := 1, updated_at := 1 }] ∧
    2 ≤ (save_new dupStore "job-1" "b.pdf" "q2" "data/b.pdf" 1).1.countP
          (fun r => r.job_id == some "job-1") :=
  C3_save_new_amended dupStore "job-1" "b.pdf" "q2" "data/b.pdf" 1 (by decide)

/-! ## Claim C5 -/

/-- C5: `update_result` is total and never raises in the embedding: when no
row carries the job id it returns the store unchanged, and when one does,
the first such row gets `analysis_text` and `status` overwritten and
`updated_at` refreshed while every other row is untouched. -/
theorem C5_update_result_total (store : List Analysis) (jid txt st : String) (now : Nat) :
    ((∀ r ∈ store, r.job_id ≠ some jid) → update_result store jid txt st now = store) ∧
    (∀ pre r post, store = pre ++ r :: post → (∀ r' ∈ pre, r'.job_id ≠ some jid) →
      r.job_id = some jid →
      update_result store jid txt st now =
        pre ++ { r with analysis_text := some txt, status := st, updated_at := now } :: post) := by
  constructor
  · exact update_result_of_absent store jid txt st now
  · intro pre r post hs hpre hr
    subst hs
    induction pre with
    | nil => simp [update_result, hr]
    | cons p pre ih =>
      have hp : p.job_id ≠ some jid := hpre p (List.mem_cons_self _ _)
      have ih' := ih (fun r' hr' => hpre r' (List.mem_cons_of_mem _ hr'))
      simp only [List.cons_append, update_result, if_neg hp, List.append_eq, ih']

/-- C5 witness: updating an empty store is a no-op; updating a store whose
single row matches rewrites that row. -/
theorem C5_witness :
    update_result [] "j" "done" "finished" 5 = [] ∧
    update_result [recJ] "j" "done" "finished" 5 =
      [{ recJ with analysis_text := some "done", status := "finished", updated_at := 5 }] :=
  ⟨(C5_update_result_total [] "j" "done" "finished" 5).1 (by simp),
   (C5_update_result_total [recJ] "j" "done" "finished" 5).2 [] recJ [] rfl (by simp) rfl⟩

/-! ## Claim C9 -/

/-- C9 fails on the code: for a present, readable, non-empty, small,
unencrypted PDF whose single page has no extractable text, the page loop
appends a "[No extractable text found]" marker, so `full_report` is
non-blank, the "No readable content" error return is not reached, and the
tool returns a Warning-prefixed report rather than a string beginning with
"Error:". -/
theorem C9_counterexample :
    read_data_tool blankPageFs "data/sample.pdf" =
      "Warning: This document may not contain typical financial content.\n\nPage 1: [No extractable text found]\n\n" ∧
    pyStartsWith (read_data_tool blankPageFs "data/sample.pdf") "Error:" = false := by decide

/-- C9 (amended): `read_data_tool` always returns a string (it is total in
the embedding, as the source catches every exception and returns). For a
missing, unreadable, empty, oversized, encrypted, or page-free file the
returned string begins with "Error:"; a PDF whose pages exist but yield no
extractable text instead produces a per-page marker report that does NOT
begin with "Error:". -/
theorem C9_read_tool_amended (file : Option FsFile) (path : String) :
    (fileLevelError file = true → pyStartsWith (read_data_tool file path) "Error:" = true) ∧
    pyStartsWith (read_data_tool blankPageFs path) "Error:" = false := by
  constructor
  · intro herr
    cases file with
    | none =>
      exact pyStartsWith_append "Error:" "Error: File not found at path "
        (path ++ ". Please ensure the file exists and the path is correct.") (by decide)
    | some f =>
      by_cases h1 : f.readable = false
      · simp [read_data_tool, h1]
        exact pyStartsWith_append "Error:" "Error: No read permission for file at path "
          path (by decide)
      · have h1' : f.readable = true := by revert h1; cases f.readable <;> simp
        by_cases h2 : (f.byteSize == 0) = true
        · simp [read_data_tool, h1', h2]
          exact pyStartsWith_append "Error:" "Error: File at path "
            (path ++ " is empty") (by decide)
        · have h2' : (f.byteSize == 0) = false := by revert h2; cases f.byteSize == 0 <;> simp
          by_cases h3 : f.byteSize > 50 * 1024 * 1024
          · simp [read_data_tool, h1', h2', h3]
            exact pyStartsWith_append "Error:" "Error: File at path "
              (path ++ " is too large (" ++ toString f.byteSize ++
                " bytes). Maximum supported size is 50MB.") (by decide)
          · cases hp : f.parsed with
            | none =>
              exfalso
              simp [fileLevelError, h1', h2', h3, hp] at herr
            | some pdf =>
              by_cases he : pdf.encrypted = true
              · simp [read_data_tool, h1', h2', h3, hp, he]
                exact pyStartsWith_append "Error:" "Error: PDF file at "
                  (path ++ " is encrypted and cannot be read") (by decide)
              · have he' : pdf.encrypted = false := by revert he; cases pdf.encrypted <;> simp
                by_cases hpg : (pdf.pages.length == 0) = true
                · simp [read_data_tool, h1', h2', h3, hp, he', hpg]
                  exact pyStartsWith_append "Error:" "Error: PDF file at "
                    (path ++ " contains no pages") (by decide)
                · have hpg' : (pdf.pages.length == 0) = false := by
                    revert hpg; cases pdf.pages.length == 0 <;> simp
                  exfalso
                  simp [fileLevelError, h1', h2', h3, hp, he', hpg'] at herr
  · rfl

/-- C9 witness: a missing file yields an "Error:"-prefixed message, while
the blank-page PDF does not. -/
theorem C9_witness :
    fileLevelError none = true ∧
    pyStartsWith (read_data_tool none "data/missing.pdf") "Error:" = true ∧
    pyStartsWith (read_data_tool blankPageFs "data/missing.pdf") "Error:" = false :=
  ⟨rfl, (C9_read_tool_amended none "data/missing.pdf").1 rfl,
    (C9_read_tool_amended none "data/missing.pdf").2⟩

/-! ## Claim C4 -/

/-- C4: with the service pre-flights configured, any upload that is empty,
larger than 50 MiB, or whose lowercased filename does not end in ".pdf" is
rejected by BOTH submission endpoints with HTTP 400 and an empty effect
list: no document write, no crew call, no enqueue, no ledger attempt. -/
theorem C4_validation_rejected (envS : SyncEnv) (envA : AsyncEnv)
    (filename : String) (size : Nat) (query : String)
    (hS : envS.hasAi = true) (hC : envA.hasCelery = true) (hA : envA.hasAi = true)
    (hbad : size = 0 ∨ MAX_FILE_SIZE < size ∨ pyEndsWith (pyLower filename) ".pdf" = false) :
    analyze_document envS filename size query = ([], SyncOutcome.httpError 400) ∧
    analyze_document_async envA filename size query = ([], AsyncOutcome.httpError 400) := by
  by_cases hfn : (filename == "") = true
  · exact ⟨by simp [analyze_document, hS, hfn],
      by simp [analyze_document_async, hC, hA, hfn]⟩
  · have hfn' : (filename == "") = false := by revert hfn; cases filename == "" <;> simp
    by_cases hext : pyEndsWith (pyLower filename) ".pdf" = true
    · have hsz : size = 0 ∨ MAX_FILE_SIZE < size := by
        rcases hbad with h | h | h
        · exact Or.inl h
        · exact Or.inr h
        · rw [hext] at h; cases h
      rcases hsz with h0 | hcap
      · subst h0
        exact ⟨by simp [analyze_document, hS, hfn', hext],
          by simp [analyze_document_async, hC, hA, hfn', hext]⟩
      · have hnz : (size == 0) = false := by
          simp only [beq_eq_false_iff_ne, ne_eq]
          omega
        exact ⟨by simp [analyze_document, hS, hfn', hext, hnz, hcap],
          by simp [analyze_document_async, hC, hA, hfn', hext, hnz, hcap]⟩
    · have hext' : pyEndsWith (pyLower filename) ".pdf" = false := by
        revert hext; cases pyEndsWith (pyLower filename) ".pdf" <;> simp
      exact ⟨by simp [analyze_document, hS, hfn', hext'],
        by simp [analyze_document_async, hC, hA, hfn', hext']⟩

/-- C4 witness: a 3-byte upload named "doc.txt" is rejected 400 by both
endpoints with no effects. -/
theorem C4_witness :
    analyze_document ⟨true, true, CrewOutcome.raised "x"⟩ "doc.txt" 3 "hello" =
      ([], SyncOutcome.httpError 400) ∧
    analyze_document_async ⟨true, true, true, true, false, true, "tid-1"⟩ "doc.txt" 3 "hello" =
      ([], AsyncOutcome.httpError 400) :=
  C4_validation_rejected ⟨true, true, CrewOutcome.raised "x"⟩
    ⟨true, true, true, true, false, true, "tid-1"⟩ "doc.txt" 3 "hello" rfl rfl rfl
    (Or.inr (Or.inr (by decide)))

/-! ## Claim C6 -/

/-- C6: when the `run_crew` call in the synchronous endpoint raises with
message text `msg` (and the upload passed validation), the endpoint's HTTP
status is exactly `classifyError msg`, the source's if/elif chain over the
message text: 429 on rate-limit phrasing, else 503 on authentication
phrasing, else 400 on the no-readable-content phrasing, else 500. -/
theorem C6_sync_classification (env : SyncEnv) (filename : String) (size : Nat)
    (query : String) (msg : String)
    (hai : env.hasAi = true) (himp : env.importOk = true)
    (hcrew : env.crew = CrewOutcome.raised msg)
    (hfn : (filename == "") = false)
    (hpdf : pyEndsWith (pyLower filename) ".pdf" = true)
    (hsz : (size == 0) = false) (hcap : ¬ size > MAX_FILE_SIZE) :
    (analyze_document env filename size query).2 = SyncOutcome.httpError (classifyError msg) ∧
    (classifyError msg = 429 ↔ rateLimitPhrase msg = true) ∧
    (classifyError msg = 503 ↔ rateLimitPhrase msg = false ∧ authPhrase msg = true) ∧
    (classifyError msg = 400 ↔
      rateLimitPhrase msg = false ∧ authPhrase msg = false ∧ noContentPhrase msg = true) ∧
    (classifyError msg = 500 ↔
      rateLimitPhrase msg = false ∧ authPhrase msg = false ∧ noContentPhrase msg = false) := by
  refine ⟨?_, ?_⟩
  · simp [analyze_document, hai, himp, hcrew, hfn, hpdf, hsz, hcap]
  · cases hr : rateLimitPhrase msg <;> cases ha : authPhrase msg <;>
      cases hn : noContentPhrase msg <;> simp [classifyError, hr, ha, hn]

/-- C6 witness: a raised message with rate-limit phrasing on a valid upload
yields HTTP 429. -/
theorem C6_witness :
    (analyze_document ⟨true, true, CrewOutcome.raised "rate limit exceeded"⟩
        "doc.pdf" 10 "q").2 =
      SyncOutcome.httpError (classifyError "rate limit exceeded") ∧
    (classifyError "rate limit exceeded" = 429 ↔
      rateLimitPhrase "rate limit exceeded" = true) ∧
    (classifyError "rate limit exceeded" = 503 ↔
      rateLimitPhrase "rate limit exceeded" = false ∧ authPhrase "rate limit exceeded" = true) ∧
    (classifyError "rate limit exceeded" = 400 ↔
      rateLimitPhrase "rate limit exceeded" = false ∧ authPhrase "rate limit exceeded" = false ∧
        noContentPhrase "rate limit exceeded" = true) ∧
    (classifyError "rate limit exceeded" = 500 ↔
      rateLimitPhrase "rate limit exceeded" = false ∧ authPhrase "rate limit exceeded" = false ∧
        noContentPhrase "rate limit exceeded" = false) :=
  C6_sync_classification ⟨true, true, CrewOutcome.raised "rate limit exceeded"⟩
    "doc.pdf" 10 "q" "rate limit exceeded" rfl rfl rfl (by decide) (by decide) (by decide)
    (by decide)

/-! ## Claim C7 -/

/-- C7: a non-blank task id unknown to the result backend gets a 200
envelope with state PENDING and progress 0 from `GET /task-status/{id}`
(no exception), and a non-blank job id with no ledger row gets a 404 from
`GET /analysis/{job_id}`. -/
theorem C7_unknown_ids (backend : List (String × CeleryState)) (task_id : String)
    (store : List Analysis) (job_id : String)
    (ht1 : (task_id == "") = false) (ht2 : (pyStrip task_id == "") = false)
    (hb : backend.lookup task_id = none)
    (hj1 : (job_id == "") = false) (hj2 : (pyStrip job_id == "") = false)
    (hr : get_by_job store job_id = none) :
    task_status true backend task_id =
      Except.ok ⟨"PENDING", 0, "Your task is queued and will begin processing soon"⟩ ∧
    analysis_record true store job_id = Except.error 404 := by
  constructor
  · simp [task_status, asyncResultState, ht1, ht2, hb]
  · simp [analysis_record, hj1, hj2, hr]

/-- C7 witness: id "t1" against an empty backend, id "j1" against an empty
ledger. -/
theorem C7_witness :
    task_status true [] "t1" =
      Except.ok ⟨"PENDING", 0, "Your task is queued and will begin processing soon"⟩ ∧
    analysis_record true [] "j1" = Except.error 404 :=
  C7_unknown_ids [] "t1" [] "j1" (by decide) (by decide) rfl (by decide) (by decide) rfl

/-! ## Claim C8 -/

/-- C8: when the query form field is empty or whitespace-only (and the
upload passes validation), both endpoints substitute the canned default
prompt and proceed: the synchronous endpoint calls `run_crew` with the
default prompt whatever the crew outcome is, and the asynchronous endpoint
enqueues the default prompt and returns the queued 200 response. -/
theorem C8_blank_query (envS : SyncEnv) (envA : AsyncEnv)
    (filename : String) (size : Nat) (query : String)
    (hq : pyBlank query = true)
    (hai : envS.hasAi = true) (himp : envS.importOk = true)
    (hc : envA.hasCelery = true) (ha : envA.hasAi = true)
    (henq : envA.enqueueOk = true) (htb : envA.taskIdBlank = false)
    (hfn : (filename == "") = false)
    (hpdf : pyEndsWith (pyLower filename) ".pdf" = true)
    (hsz : (size == 0) = false) (hcap : ¬ size > MAX_FILE_SIZE) :
    Effect.callCrew DEFAULT_QUERY ∈ (analyze_document envS filename size query).1 ∧
    (analyze_document_async envA filename size query).1 =
      [Effect.writeDoc, Effect.enqueueTask DEFAULT_QUERY] ++
        (if envA.hasDb then [Effect.saveLedger envA.taskId] else []) ∧
    (analyze_document_async envA filename size query).2 = AsyncOutcome.queued envA.taskId := by
  have hstrip : pyStrip DEFAULT_QUERY = DEFAULT_QUERY := by decide
  refine ⟨?_, ?_, ?_⟩
  · cases hcr : envS.crew with
    | raised msg =>
      simp [analyze_document, hai, himp, hcr, hfn, hpdf, hsz, hcap, hq, hstrip]
    | returned truthy out =>
      cases truthy <;>
        simp [analyze_document, hai, himp, hcr, hfn, hpdf, hsz, hcap, hq, hstrip]
  · simp [analyze_document_async, hc, ha, henq, htb, hfn, hpdf, hsz, hcap, hq, hstrip]
  · simp [analyze_document_async, hc, ha, henq, htb, hfn, hpdf, hsz, hcap, hq]

/-- C8 witness: a whitespace-only query on a valid upload. -/
theorem C8_witness :
    Effect.callCrew DEFAULT_QUERY ∈
      (analyze_document ⟨true, true, CrewOutcome.raised "x"⟩ "doc.pdf" 10 "   ").1 ∧
    (analyze_document_async ⟨true, true, true, true, false, true, "tid-1"⟩
        "doc.pdf" 10 "   ").1 =
      [Effect.writeDoc, Effect.enqueueTask DEFAULT_QUERY, Effect.saveLedger "tid-1"] ∧
    (analyze_document_async ⟨true, true, true, true, false, true, "tid-1"⟩
        "doc.pdf" 10 "   ").2 = AsyncOutcome.queued "tid-1" :=
  C8_blank_query ⟨true, true, CrewOutcome.raised "x"⟩
    ⟨true, true, true, true, false, true, "tid-1"⟩ "doc.pdf" 10 "   "
    (by decide) rfl rfl rfl rfl rfl rfl (by decide) (by decide) (by decide) (by decide)

/-! ## Claim C10 -/

/-- C10: in the asynchronous endpoint the work item is enqueued strictly
before the ledger record is attempted (effect order: write, enqueue, then
ledger save), and the queued 200 response does not depend on the ledger
write succeeding (`saveOk` does not occur in the outcome). Consequently a
worker that finishes before the ledger row exists performs a terminal
`update_result` that silently leaves the store unchanged. -/
theorem C10_enqueue_before_ledger (env : AsyncEnv) (filename : String) (size : Nat)
    (query : String) (store : List Analysis) (txt st : String) (now : Nat)
    (hc : env.hasCelery = true) (ha : env.hasAi = true) (hdb : env.hasDb = true)
    (henq : env.enqueueOk = true) (htb : env.taskIdBlank = false)
    (hfn : (filename == "") = false)
    (hpdf : pyEndsWith (pyLower filename) ".pdf" = true)
    (hsz : (size == 0) = false) (hcap : ¬ size > MAX_FILE_SIZE)
    (habsent : ∀ r ∈ store, r.job_id ≠ some env.taskId) :
    (analyze_document_async env filename size query).1 =
      [Effect.writeDoc,
       Effect.enqueueTask (pyStrip (if pyBlank query then DEFAULT_QUERY else query)),
       Effect.saveLedger env.taskId] ∧
    (analyze_document_async env filename size query).2 = AsyncOutcome.queued env.taskId ∧
    update_result store env.taskId txt st now = store := by
  refine ⟨?_, ?_, update_result_of_absent store env.taskId txt st now habsent⟩
  · simp [analyze_document_async, hc, ha, hdb, henq, htb, hfn, hpdf, hsz, hcap]
  · simp [analyze_document_async, hc, ha, henq, htb, hfn, hpdf, hsz, hcap]

/-- C10 witness: a valid upload on an env with a failing ledger
(`saveOk = false`) still queues, with the enqueue effect preceding the
ledger attempt, and the worker's `update_result` against an empty ledger
is a no-op. -/
theorem C10_witness :
    (analyze_document_async ⟨true, true, true, true, false, false, "tid-9"⟩
        "doc.pdf" 10 "hello").1 =
      [Effect.writeDoc, Effect.enqueueTask "hello", Effect.saveLedger "tid-9"] ∧
    (analyze_document_async ⟨true, true, true, true, false, false, "tid-9"⟩
        "doc.pdf" 10 "hello").2 = AsyncOutcome.queued "tid-9" ∧
    update_result [] "tid-9" "report" "finished" 7 = [] :=
  C10_enqueue_before_ledger ⟨true, true, true, true, false, false, "tid-9"⟩
    "doc.pdf" 10 "hello" [] "report" "finished" 7 rfl rfl rfl rfl rfl rfl
    (by decide) (by decide) (by decide) (by simp)
